import Mathlib

/-!
# Verification of `OneBox/Scripts/generate_app_store_screenshots.py`

A shallow embedding of the App Store screenshot generation script.  The
script is a sequential driver: it cleans an output directory, iterates a
static table of device profiles (booting a simulator, installing a build,
running UI tests, organizing the produced image files per device), and
finally writes a manifest of the output tree.

Modelling choices:
* The file system state visible to the script is the output directory:
  its top-level file names, its immediate subdirectories with their file
  names, and the manifest (`FS`).
* External tools (simulator control, build system, test runner) are
  oracles: a `DevBehavior` per device records the outcome of each external
  step of the per-device loop, including whether the step raised a Python
  exception.  The UI test runner's effect is the list of file names it
  drops into the top-level output directory.
* Python string operations used by the script (`str.replace`, `str.lower`,
  `in` substring test, `pathlib.Path.glob("*.png")` name matching) are
  modelled by executable functions on `List Char` below.  `pathlib`'s glob
  matches every name ending in `.png` (hidden files included), so the glob
  test is a suffix test.
-/

namespace Screenshots

/-! ## Python string primitives -/

/-- Model of Python `str.lower` on one character (ASCII range; every string
the script manipulates with `lower` is ASCII). -/
def pyLowerChar (c : Char) : Char :=
  if 'A' ≤ c && c ≤ 'Z' then Char.ofNat (c.toNat + 32) else c

/-- Model of Python `str.lower`. -/
def pyLower (s : String) : String :=
  (s.toList.map pyLowerChar).asString

/-- Substring occurrence on character lists, the semantics of Python's
`pat in s` for strings. -/
def isInfixOfList (pat : List Char) : List Char → Bool
  | [] => pat.isEmpty
  | c :: rest => pat.isPrefixOf (c :: rest) || isInfixOfList pat rest

/-- Python `pat in s` (case-sensitive substring test). -/
def containsSub (s pat : String) : Bool :=
  isInfixOfList pat.toList s.toList

/-- The script's case-insensitive match `device_name.lower() in
screenshot_file.name.lower()` (line 227). -/
def containsCI (s pat : String) : Bool :=
  isInfixOfList (pyLower pat).toList (pyLower s).toList

/-- Fuel-indexed replacement of every non-overlapping occurrence of `pat`
by `rep`, scanning left to right.  Fuel at least the length of the input
makes the scan complete (each step consumes at least one character). -/
def replaceFuel (pat rep : List Char) : Nat → List Char → List Char
  | _, [] => []
  | 0, s => s
  | n + 1, c :: rest =>
    if pat.isPrefixOf (c :: rest) then
      rep ++ replaceFuel pat rep n ((c :: rest).drop pat.length)
    else
      c :: replaceFuel pat rep n rest

/-- Model of Python `s.replace(pat, rep)`.  The script only ever calls it
with the non-empty one-character patterns `" "`, `"("`, `")"`; for an empty
pattern this model returns `s` unchanged. -/
def pyReplace (s pat rep : String) : String :=
  if pat.toList.isEmpty then s
  else (replaceFuel pat.toList rep.toList s.toList.length s.toList).asString

/-- Name matching of `pathlib.Path.glob("*.png")`: `pathlib` translates the
pattern through `fnmatch`, which matches any name (hidden ones included)
ending in `.png`, case-sensitively. -/
def matchesPngGlob (name : String) : Bool :=
  ".png".toList.isSuffixOf name.toList

/-! ## Static configuration (`SCREENSHOT_DEVICES`, lines 26-64)

A Python `dict` iterates in insertion order, so the table is an association
list in source order. -/

/-- One entry of the `SCREENSHOT_DEVICES` table. -/
structure DeviceConfig where
  simulator : String
  size : String
  required : Bool
  screenshots : List String
deriving DecidableEq, Repr

/-- The static device table, in the source's insertion order. -/
def SCREENSHOT_DEVICES : List (String × DeviceConfig) :=
  [ ("iPhone 15 Pro Max",
     { simulator := "iPhone 15 Pro Max", size := "6.7-inch", required := true,
       screenshots := ["home_screen", "images_to_pdf_flow", "pdf_merge_interface",
                       "interactive_signing", "privacy_dashboard"] }),
    ("iPhone 15",
     { simulator := "iPhone 15", size := "6.1-inch", required := true,
       screenshots := ["home_screen", "tool_selection", "processing_progress",
                       "export_options", "settings_privacy"] }),
    ("iPad Pro 12.9-inch",
     { simulator := "iPad Pro (12.9-inch) (6th generation)", size := "12.9-inch",
       required := true,
       screenshots := ["split_view_tools", "page_organizer_grid",
                       "workflow_automation", "settings_landscape"] }) ]

/-! ## File-system state -/

/-- The manifest the script writes (`create_screenshot_manifest`):
a generation timestamp and, per device folder, a screenshot count and the
screenshot file names. -/
structure Manifest where
  generated_at : String
  devices : List (String × Nat × List String)
deriving DecidableEq, Repr

/-- The output directory `<project>/Screenshots/AppStore` as the script
sees it: top-level file names, immediate subdirectories with their file
names, and the manifest contents (if a manifest has been written).
`manifest.json` itself also appears in `topFiles` once written. -/
structure FS where
  topFiles : List String
  subdirs : List (String × List String)
  manifest : Option Manifest
deriving DecidableEq, Repr

/-- Files of subdirectory `n` (empty if the subdirectory does not exist). -/
def subdirFiles (fs : FS) (n : String) : List String :=
  (fs.subdirs.lookup n).getD []

/-! ## `clean_screenshots` (lines 76-82) -/

/-- `clean_screenshots`: unlink every top-level file matched by
`glob("*.png")`.  Subdirectories are untouched. -/
def clean_screenshots (fs : FS) : FS :=
  { fs with topFiles := fs.topFiles.filter (fun f => !(matchesPngGlob f)) }

/-! ## `organize_screenshots` (lines 219-230) -/

/-- Line 221: the device's folder-safe name, spaces replaced by
underscores, parentheses removed. -/
def device_folder_name (cfg : DeviceConfig) : String :=
  pyReplace (pyReplace (pyReplace cfg.simulator " " "_") "(" "") ")" ""

/-- `organize_screenshots`: create the device subdirectory (`mkdir` with
`exist_ok`), then move every top-level `*.png` file whose name contains the
folder-safe name case-insensitively into it.  `Path.rename` silently
overwrites a file of the same name already in the subdirectory. -/
def organize_screenshots (cfg : DeviceConfig) (fs : FS) : FS :=
  let device_name := device_folder_name cfg
  let subdirs1 :=
    if (fs.subdirs.lookup device_name).isSome then fs.subdirs
    else fs.subdirs ++ [(device_name, [])]
  let moved := fs.topFiles.filter (fun f => matchesPngGlob f && containsCI f device_name)
  { fs with
    topFiles := fs.topFiles.filter (fun f => !(matchesPngGlob f && containsCI f device_name)),
    subdirs := subdirs1.map (fun e =>
      if e.1 == device_name then (e.1, e.2.filter (fun x => !(moved.contains x)) ++ moved)
      else e) }

/-! ## `create_screenshot_manifest` (lines 232-251) -/

/-- `create_screenshot_manifest`: scan the immediate subdirectories of the
output directory, record each one's `*.png` files and their count, stamp
the result with the current time (`now`), and write it to `manifest.json`
at the top level (overwriting any previous manifest). -/
def create_screenshot_manifest (now : String) (fs : FS) : FS :=
  let devs := fs.subdirs.foldl
    (fun acc e =>
      let screenshots := e.2.filter (fun f => matchesPngGlob f)
      acc ++ [(e.1, (screenshots.length, screenshots))]) []
  { fs with
    manifest := some { generated_at := now, devices := devs },
    topFiles :=
      if fs.topFiles.contains "manifest.json" then fs.topFiles
      else fs.topFiles ++ ["manifest.json"] }

/-! ## `boot_simulator` (lines 84-128)

The function shells out twice: `xcrun simctl list devices -j` and
`xcrun simctl boot <uuid>`.  A `BootEnv` records what those commands
return.  The parsed JSON device list is a sequence of runtime groups, each
a list of simulator records, in the iteration order of the Python dict. -/

/-- One record of `simctl list devices -j` as the script reads it. -/
structure SimDevice where
  name : String
  isAvailable : Bool
  udid : String
deriving DecidableEq, Repr

/-- Result of a `subprocess.run` call: exit code and captured output. -/
structure CmdResult where
  returncode : Int
  stdout : String
  stderr : String
deriving DecidableEq, Repr

/-- Oracle for the external commands `boot_simulator` issues. -/
structure BootEnv where
  /-- Result of `xcrun simctl list devices -j`. -/
  listResult : CmdResult
  /-- The runtime groups of the parsed JSON, in dict iteration order. -/
  parsedDevices : List (List SimDevice)
  /-- Result of `xcrun simctl boot <uuid>`, per uuid. -/
  bootCmd : String → CmdResult

/-- The double loop of lines 100-106: in each runtime group take the first
device whose name matches and which is available; its udid ends the search
only if it is truthy (non-empty), otherwise scanning continues with the
next runtime group, exactly as the `if device_uuid: break` does. -/
def findDeviceUuid (device_name : String) : List (List SimDevice) → Option String
  | [] => none
  | group :: rest =>
    match group.find? (fun d => d.name == device_name && d.isAvailable) with
    | some d => if d.udid == "" then findDeviceUuid device_name rest else some d.udid
    | none => findDeviceUuid device_name rest

/-- `boot_simulator`: list devices (a non-zero exit is failure), resolve
the name to a uuid (`None`/empty means failure), issue the boot command
treating stderr containing `Unable to boot device in current state: Booted`
as success, and return the uuid.  `none` models the Python `False` return;
the sleeps and `open -a Simulator` have no effect on the model's state. -/
def boot_simulator (env : BootEnv) (device_name : String) : Option String :=
  if env.listResult.returncode != 0 then none
  else
    match findDeviceUuid device_name env.parsedDevices with
    | none => none
    | some device_uuid =>
      let r := env.bootCmd device_uuid
      if r.returncode != 0 &&
         !(containsSub r.stderr "Unable to boot device in current state: Booted") then none
      else some device_uuid

/-! ## The per-device loop of `generate_all_screenshots` (lines 271-299)

Each iteration is wrapped in `try/except Exception: continue`, so an
exception at any step skips the rest of that device's processing.  A
`DevBehavior` records, per device, the outcome of each external step:
whether it raised, and otherwise what it returned.  The UI test run's
observable effect is the list of file names it writes into the top-level
output directory (`run_screenshot_tests` itself returns `True` whatever
the test exit code, line 217, so its exit code cannot skip a device). -/

structure DevBehavior where
  /-- `boot_simulator` raised. -/
  bootExn : Bool
  /-- Value returned by `boot_simulator`: `none` models `False`. -/
  bootRes : Option String
  /-- `setup_simulator_environment` raised (it has no model-visible effect
  otherwise: it only configures the simulator). -/
  setupExn : Bool
  /-- `install_app_to_simulator` raised. -/
  installExn : Bool
  /-- Value returned by `install_app_to_simulator`. -/
  installRes : Bool
  /-- `run_screenshot_tests` raised (before the test run produced files). -/
  testExn : Bool
  /-- File names the UI test run writes into the top-level output dir. -/
  testFiles : List String
  /-- `organize_screenshots` raised (before any move). -/
  organizeExn : Bool
deriving DecidableEq, Repr

/-- Python truthiness of `boot_simulator`'s return at line 277
(`if not device_uuid: continue`): `False` and the empty string are falsy. -/
def pyTruthyStr : Option String → Bool
  | none => false
  | some s => !(s == "")

/-- One iteration of the device loop: the try block of lines 274-295.
Returns the updated file system and whether the device fully completed
(reaching the `success_count += 1` of line 294). -/
def processDevice (b : DevBehavior) (cfg : DeviceConfig) (fs : FS) : FS × Bool :=
  if b.bootExn then (fs, false)
  else if !(pyTruthyStr b.bootRes) then (fs, false)
  else if b.setupExn then (fs, false)
  else if b.installExn then (fs, false)
  else if !b.installRes then (fs, false)
  else if b.testExn then (fs, false)
  else
    let fs1 : FS := { fs with topFiles := fs.topFiles ++ b.testFiles }
    if b.organizeExn then (fs1, false)
    else (organize_screenshots cfg fs1, true)

/-- A device fully completes iff no step raised, boot returned a truthy
uuid, and the build/install succeeded. -/
def devSuccess (b : DevBehavior) : Bool :=
  !b.bootExn && pyTruthyStr b.bootRes && !b.setupExn && !b.installExn &&
  b.installRes && !b.testExn && !b.organizeExn

/-- A device's processing reaches the UI test run (so the test run's files
land in the output directory) iff every earlier step went through. -/
def devReachedTests (b : DevBehavior) : Bool :=
  !b.bootExn && pyTruthyStr b.bootRes && !b.setupExn && !b.installExn &&
  b.installRes && !b.testExn

/-- The device loop over a list of (name, config) pairs: final file system,
`success_count`, and the devices attempted (each loop iteration prints
`Processing <device_name>` before its try block). -/
def processAll (env : String → DevBehavior) :
    List (String × DeviceConfig) → FS → FS × Nat × List String
  | [], fs => (fs, 0, [])
  | dc :: rest, fs =>
    let r1 := processDevice (env dc.1) dc.2 fs
    let r2 := processAll env rest r1.1
    (r2.1, (if r1.2 then 1 else 0) + r2.2.1, dc.1 :: r2.2.2)

/-- Lines 260-266: the devices to process.  `if specific_device:` is a
Python truthiness test, so both `None` and the empty string (the result of
invoking `--device=`) leave the whole table selected; only a non-empty
selected name is validated against the table, and an unknown one makes the
run return `False` without processing anything. -/
def selectedDevices : Option String → Option (List (String × DeviceConfig))
  | none => some SCREENSHOT_DEVICES
  | some d =>
    if d == "" then some SCREENSHOT_DEVICES
    else
      match SCREENSHOT_DEVICES.lookup d with
      | some cfg => some [(d, cfg)]
      | none => none

/-- Observable outcome of `generate_all_screenshots`: the final file
system, the boolean the function returns, and the devices attempted. -/
structure RunResult where
  fs : FS
  success : Bool
  attempted : List String
deriving DecidableEq, Repr

/-- `generate_all_screenshots` (lines 253-311): optional clean, device
selection (an unknown selected name returns `False` at once — note the
clean has already happened), the per-device loop, the manifest, and the
return value `success_count == total_devices`. -/
def generate_all_screenshots (env : String → DevBehavior) (now : String)
    (clean : Bool) (specific_device : Option String) (fs : FS) : RunResult :=
  let fs0 := if clean then clean_screenshots fs else fs
  match selectedDevices specific_device with
  | none => { fs := fs0, success := false, attempted := [] }
  | some devices =>
    let r := processAll env devices fs0
    { fs := create_screenshot_manifest now r.1,
      success := r.2.1 == devices.length,
      attempted := r.2.2 }

/-- `main` (lines 313-333): exit 1 when `OneBox.xcodeproj` is not found
under the project path, otherwise exit 0 iff `generate_all_screenshots`
returned `True`. -/
def mainExit (projectExists : Bool) (env : String → DevBehavior) (now : String)
    (clean : Bool) (specific_device : Option String) (fs : FS) : Nat :=
  if !projectExists then 1
  else if (generate_all_screenshots env now clean specific_device fs).success then 0
  else 1

/-! ## Concrete instances used as test inputs -/

/-- A per-device behavior in which every external step succeeds and the UI
test run drops `files` into the top-level output directory. -/
def okBehavior (files : List String) : DevBehavior :=
  { bootExn := false, bootRes := some "6E3C2F3B-0000-4000-8000-000000000001",
    setupExn := false, installExn := false, installRes := true, testExn := false,
    testFiles := files, organizeExn := false }

/-- A behavior in which `boot_simulator` returns `False` (device not found)
and nothing else happens for that device. -/
def bootFailBehavior : DevBehavior :=
  { bootExn := false, bootRes := none, setupExn := false, installExn := false,
    installRes := true, testExn := false, testFiles := [], organizeExn := false }

/-- A behavior in which `boot_simulator` raises an exception. -/
def raisingBehavior : DevBehavior :=
  { bootExn := true, bootRes := none, setupExn := false, installExn := false,
    installRes := true, testExn := false, testFiles := [], organizeExn := false }

/-- Every device succeeds; no screenshot files are produced. -/
def allOkEnv : String → DevBehavior := fun _ => okBehavior []

/-- The `iPhone 15` device raises during processing; the others succeed. -/
def c2Env : String → DevBehavior := fun name =>
  if name = "iPhone 15" then raisingBehavior else okBehavior []

/-- A run in which every device succeeds, but the third device's test run
produces a file whose name contains the folder-safe name of the second
device (`iPhone_15`): no organize step runs after that file appears whose
device name matches it, so it stays at the top level. -/
def c6Env : String → DevBehavior := fun name =>
  if name = "iPhone 15 Pro Max" then okBehavior ["iPhone_15_Pro_Max_home_screen.png"]
  else if name = "iPhone 15" then okBehavior ["iPhone_15_home_screen.png"]
  else okBehavior ["iPad_Pro_12.9-inch_6th_generation_split_view_tools.png",
                   "iPhone_15_bonus.png"]

/-- An empty output directory. -/
def emptyFS : FS := { topFiles := [], subdirs := [], manifest := none }

/-- An output directory with leftovers from a previous run. -/
def sampleFS : FS :=
  { topFiles := ["iPhone_15_old.png", "notes.txt"],
    subdirs := [("iPhone_15", ["iPhone_15_home_screen.png"])],
    manifest := none }

/-- A simulator list that has no available device named `iPhone 15`. -/
def noMatchBootEnv : BootEnv :=
  { listResult := { returncode := 0, stdout := "", stderr := "" },
    parsedDevices :=
      [[{ name := "iPhone 14", isAvailable := true, udid := "AAAA" }],
       [{ name := "iPhone 15", isAvailable := false, udid := "BBBB" }]],
    bootCmd := fun _ => { returncode := 0, stdout := "", stderr := "" } }

/-- A simulator list with an available `iPhone 15` whose boot command exits
non-zero but reports the tolerated already-booted condition. -/
def alreadyBootedEnv : BootEnv :=
  { listResult := { returncode := 0, stdout := "", stderr := "" },
    parsedDevices := [[{ name := "iPhone 15", isAvailable := true, udid := "CCCC" }]],
    bootCmd := fun _ =>
      { returncode := 149, stdout := "",
        stderr := "An error was encountered processing the command: Unable to boot device in current state: Booted" } }

set_option maxRecDepth 10000

/-! ## Helper lemmas -/

theorem lookup_cons_eq {β : Type} (k a : String) (v : β) (l : List (String × β)) :
    List.lookup k ((a, v) :: l) = if k = a then some v else List.lookup k l := by
  cases h : k == a
  · simp only [List.lookup, h]
    rw [if_neg (by simpa using (beq_iff_eq (a := k) (b := a)).not.mp (by simp [h]))]
  · simp only [List.lookup, h]
    rw [if_pos (beq_iff_eq.mp h)]

theorem lookup_mem {β : Type} (l : List (String × β)) (k : String) (v : β)
    (h : List.lookup k l = some v) : (k, v) ∈ l := by
  induction l with
  | nil => simp [List.lookup] at h
  | cons e rest ih =>
    rcases e with ⟨a, w⟩
    rw [lookup_cons_eq] at h
    by_cases hk : k = a
    · simp [hk] at h
      simp [hk, h]
    · simp [hk] at h
      exact List.mem_cons_of_mem _ (ih h)

theorem lookup_append_left {β : Type} (l l' : List (String × β)) (k : String)
    (h : List.lookup k l = none) : List.lookup k (l ++ l') = List.lookup k l' := by
  induction l with
  | nil => simp
  | cons e rest ih =>
    rcases e with ⟨a, w⟩
    rw [lookup_cons_eq] at h
    by_cases hk : k = a
    · simp [hk] at h
    · rw [List.cons_append, lookup_cons_eq, if_neg hk]
      exact ih (by simpa [hk] using h)

theorem lookup_append_some {β : Type} (l l' : List (String × β)) (k : String) (v : β)
    (h : List.lookup k l = some v) : List.lookup k (l ++ l') = some v := by
  induction l with
  | nil => simp [List.lookup] at h
  | cons e rest ih =>
    rcases e with ⟨a, w⟩
    rw [List.cons_append, lookup_cons_eq]
    rw [lookup_cons_eq] at h
    by_cases hk : k = a
    · simpa [hk] using h
    · rw [if_neg hk] at h ⊢
      exact ih h

theorem lookup_map_update_ne {β : Type} (l : List (String × β)) (g : String × β → β)
    (dn k : String) (hk : k ≠ dn) :
    List.lookup k (l.map (fun e => if e.1 == dn then (e.1, g e) else e)) =
      List.lookup k l := by
  induction l with
  | nil => simp
  | cons e rest ih =>
    rcases e with ⟨a, w⟩
    by_cases ha : a = dn
    · subst ha
      simp only [List.map_cons, beq_self_eq_true, if_pos]
      rw [lookup_cons_eq, lookup_cons_eq, if_neg (by exact fun h => hk h),
        if_neg (by exact fun h => hk h)]
      exact ih
    · simp only [List.map_cons]
      rw [if_neg (by simpa using ha)]
      rw [lookup_cons_eq, lookup_cons_eq]
      by_cases hka : k = a
      · simp [hka]
      · simp only [if_neg hka]
        exact ih

theorem lookup_map_update_eq {β : Type} (l : List (String × β)) (g : String × β → β)
    (dn : String) :
    List.lookup dn (l.map (fun e => if e.1 == dn then (e.1, g e) else e)) =
      (List.lookup dn l).map (fun v => g (dn, v)) := by
  induction l with
  | nil => simp
  | cons e rest ih =>
    rcases e with ⟨a, w⟩
    by_cases ha : a = dn
    · subst ha
      simp only [List.map_cons, beq_self_eq_true, if_pos]
      rw [lookup_cons_eq, lookup_cons_eq, if_pos rfl, if_pos rfl]
      simp
    · simp only [List.map_cons]
      rw [if_neg (by simpa using ha)]
      rw [lookup_cons_eq, lookup_cons_eq]
      by_cases hda : dn = a
      · exact absurd hda.symm ha
      · simp only [if_neg hda]
        exact ih

theorem foldl_append_map {α β : Type} (g : α → β) (l : List α) :
    ∀ acc : List β, l.foldl (fun acc e => acc ++ [g e]) acc = acc ++ l.map g := by
  induction l with
  | nil => simp
  | cons e rest ih => intro acc; simp [List.foldl_cons, ih]

/-! ## Model-level lemmas -/

theorem organize_topFiles (cfg : DeviceConfig) (fs : FS) :
    (organize_screenshots cfg fs).topFiles =
      fs.topFiles.filter
        (fun f => !(matchesPngGlob f && containsCI f (device_folder_name cfg))) := rfl

theorem organize_subdirs_ne (cfg : DeviceConfig) (fs : FS) (n : String)
    (hn : n ≠ device_folder_name cfg) :
    List.lookup n (organize_screenshots cfg fs).subdirs = List.lookup n fs.subdirs := by
  unfold organize_screenshots
  simp only
  rw [lookup_map_update_ne _ _ _ _ hn]
  by_cases h : (fs.subdirs.lookup (device_folder_name cfg)).isSome
  · rw [if_pos h]
  · rw [if_neg h]
    rcases hl : List.lookup n fs.subdirs with _ | v
    · rw [lookup_append_left _ _ _ hl, lookup_cons_eq, if_neg hn]
      simp [List.lookup]
    · rw [lookup_append_some _ _ _ _ hl]

theorem organize_subdir_isSome (cfg : DeviceConfig) (fs : FS) :
    (List.lookup (device_folder_name cfg) (organize_screenshots cfg fs).subdirs).isSome = true := by
  unfold organize_screenshots
  simp only
  rw [lookup_map_update_eq]
  by_cases h : (fs.subdirs.lookup (device_folder_name cfg)).isSome
  · rw [if_pos h]
    rcases hl : List.lookup (device_folder_name cfg) fs.subdirs with _ | v
    · rw [hl] at h; simp at h
    · simp [hl]
  · rw [if_neg h]
    have hnone : List.lookup (device_folder_name cfg) fs.subdirs = none :=
      Option.not_isSome_iff_eq_none.mp (by simpa using h)
    rw [lookup_append_left _ _ _ hnone, lookup_cons_eq, if_pos rfl]
    simp

theorem organize_subdir_eq (cfg : DeviceConfig) (fs : FS) :
    subdirFiles (organize_screenshots cfg fs) (device_folder_name cfg) =
      (subdirFiles fs (device_folder_name cfg)).filter
          (fun x => !((fs.topFiles.filter
              (fun f => matchesPngGlob f && containsCI f (device_folder_name cfg))).contains x))
        ++ fs.topFiles.filter
            (fun f => matchesPngGlob f && containsCI f (device_folder_name cfg)) := by
  unfold subdirFiles organize_screenshots
  simp only
  rw [lookup_map_update_eq]
  by_cases h : (fs.subdirs.lookup (device_folder_name cfg)).isSome
  · rw [if_pos h]
    rcases hl : List.lookup (device_folder_name cfg) fs.subdirs with _ | v
    · rw [hl] at h; simp at h
    · simp [hl]
  · rw [if_neg h]
    have hnone : List.lookup (device_folder_name cfg) fs.subdirs = none :=
      Option.not_isSome_iff_eq_none.mp (by simpa using h)
    rw [lookup_append_left _ _ _ hnone, lookup_cons_eq, if_pos rfl]
    simp [hnone]

theorem organize_manifest (cfg : DeviceConfig) (fs : FS) :
    (organize_screenshots cfg fs).manifest = fs.manifest := rfl

theorem processDevice_snd (b : DevBehavior) (cfg : DeviceConfig) (fs : FS) :
    (processDevice b cfg fs).2 = devSuccess b := by
  unfold processDevice devSuccess
  cases b.bootExn <;> cases pyTruthyStr b.bootRes <;> cases b.setupExn <;>
    cases b.installExn <;> cases b.installRes <;> cases b.testExn <;>
    cases b.organizeExn <;> simp

theorem devSuccess_iff (b : DevBehavior) :
    devSuccess b = true ↔
      b.bootExn = false ∧ pyTruthyStr b.bootRes = true ∧ b.setupExn = false ∧
      b.installExn = false ∧ b.installRes = true ∧ b.testExn = false ∧
      b.organizeExn = false := by
  unfold devSuccess
  cases b.bootExn <;> cases pyTruthyStr b.bootRes <;> cases b.setupExn <;>
    cases b.installExn <;> cases b.installRes <;> cases b.testExn <;>
    cases b.organizeExn <;> simp

theorem devReachedTests_iff (b : DevBehavior) :
    devReachedTests b = true ↔
      b.bootExn = false ∧ pyTruthyStr b.bootRes = true ∧ b.setupExn = false ∧
      b.installExn = false ∧ b.installRes = true ∧ b.testExn = false := by
  unfold devReachedTests
  cases b.bootExn <;> cases pyTruthyStr b.bootRes <;> cases b.setupExn <;>
    cases b.installExn <;> cases b.installRes <;> cases b.testExn <;> simp

theorem processDevice_top_mem (b : DevBehavior) (cfg : DeviceConfig) (fs : FS) (f : String)
    (hf : f ∈ (processDevice b cfg fs).1.topFiles) :
    (f ∈ fs.topFiles ∨ (devReachedTests b = true ∧ f ∈ b.testFiles)) ∧
      (matchesPngGlob f = true → devSuccess b = true →
        containsCI f (device_folder_name cfg) = false) := by
  unfold processDevice at hf
  split at hf
  case isTrue h =>
    refine ⟨Or.inl hf, fun _ hs => ?_⟩
    rw [devSuccess_iff] at hs
    simp [h] at hs
  case isFalse h1 =>
  split at hf
  case isTrue h =>
    refine ⟨Or.inl hf, fun _ hs => ?_⟩
    rw [devSuccess_iff] at hs
    simp_all
  case isFalse h2 =>
  split at hf
  case isTrue h =>
    refine ⟨Or.inl hf, fun _ hs => ?_⟩
    rw [devSuccess_iff] at hs
    simp [h] at hs
  case isFalse h3 =>
  split at hf
  case isTrue h =>
    refine ⟨Or.inl hf, fun _ hs => ?_⟩
    rw [devSuccess_iff] at hs
    simp [h] at hs
  case isFalse h4 =>
  split at hf
  case isTrue h =>
    refine ⟨Or.inl hf, fun _ hs => ?_⟩
    rw [devSuccess_iff] at hs
    simp_all
  case isFalse h5 =>
  split at hf
  case isTrue h =>
    refine ⟨Or.inl hf, fun _ hs => ?_⟩
    rw [devSuccess_iff] at hs
    simp [h] at hs
  case isFalse h6 =>
  have hreach : devReachedTests b = true := by
    rw [devReachedTests_iff]
    simp_all
  split at hf
  case isTrue h =>
    simp only [List.mem_append] at hf
    refine ⟨?_, fun _ hs => ?_⟩
    · rcases hf with hf | hf
      · exact Or.inl hf
      · exact Or.inr ⟨hreach, hf⟩
    · rw [devSuccess_iff] at hs
      simp [h] at hs
  case isFalse h7 =>
    rw [organize_topFiles, List.mem_filter] at hf
    rcases hf with ⟨hmem, hcond⟩
    simp only [List.mem_append] at hmem
    refine ⟨?_, fun hpng _ => ?_⟩
    · rcases hmem with hm | hm
      · exact Or.inl hm
      · exact Or.inr ⟨hreach, hm⟩
    · simp [hpng] at hcond
      exact hcond

theorem processDevice_subdirs_ne (b : DevBehavior) (cfg : DeviceConfig) (fs : FS)
    (n : String) (hn : n ≠ device_folder_name cfg) :
    List.lookup n (processDevice b cfg fs).1.subdirs = List.lookup n fs.subdirs := by
  unfold processDevice
  split
  · rfl
  split
  · rfl
  split
  · rfl
  split
  · rfl
  split
  · rfl
  split
  · rfl
  split
  · rfl
  · exact organize_subdirs_ne cfg _ n hn

theorem processAll_attempted (env : String → DevBehavior)
    (ds : List (String × DeviceConfig)) :
    ∀ fs, (processAll env ds fs).2.2 = ds.map Prod.fst := by
  induction ds with
  | nil => intro fs; rfl
  | cons dc rest ih => intro fs; simp [processAll, ih]

theorem processAll_count (env : String → DevBehavior)
    (ds : List (String × DeviceConfig)) :
    ∀ fs, (processAll env ds fs).2.1 = ds.countP (fun dc => devSuccess (env dc.1)) := by
  induction ds with
  | nil => intro fs; rfl
  | cons dc rest ih =>
    intro fs
    simp only [processAll, List.countP_cons, ih, processDevice_snd]
    by_cases h : devSuccess (env dc.1) = true
    · simp [h, Nat.add_comm]
    · simp only [Bool.not_eq_true] at h
      simp [h]

theorem processAll_subdirs_ne (env : String → DevBehavior)
    (ds : List (String × DeviceConfig)) (n : String)
    (hn : ∀ dc ∈ ds, n ≠ device_folder_name dc.2) :
    ∀ fs, List.lookup n (processAll env ds fs).1.subdirs = List.lookup n fs.subdirs := by
  induction ds with
  | nil => intro fs; rfl
  | cons dc rest ih =>
    intro fs
    simp only [processAll]
    rw [ih (fun d hd => hn d (List.mem_cons_of_mem _ hd))]
    exact processDevice_subdirs_ne _ _ _ _ (hn dc (List.mem_cons_self _ _))

theorem processAll_top_origin (env : String → DevBehavior)
    (ds : List (String × DeviceConfig)) :
    ∀ fs f, f ∈ (processAll env ds fs).1.topFiles → matchesPngGlob f = true →
      (f ∈ fs.topFiles ∧
        ∀ dc ∈ ds, devSuccess (env dc.1) = true →
          containsCI f (device_folder_name dc.2) = false) ∨
      (∃ pre d suf, ds = pre ++ d :: suf ∧
        devReachedTests (env d.1) = true ∧ f ∈ (env d.1).testFiles ∧
        ∀ dc ∈ d :: suf, devSuccess (env dc.1) = true →
          containsCI f (device_folder_name dc.2) = false) := by
  induction ds with
  | nil =>
    intro fs f hf _
    exact Or.inl ⟨hf, by simp⟩
  | cons dc rest ih =>
    intro fs f hf hpng
    rcases ih _ f hf hpng with ⟨hmem, hrest⟩ | ⟨pre, d, suf, hds, hr, hin, hall⟩
    · rcases processDevice_top_mem (env dc.1) dc.2 fs f hmem with ⟨horig, hnomatch⟩
      rcases horig with horig | ⟨hreach, hin⟩
      · refine Or.inl ⟨horig, fun e he hs => ?_⟩
        rcases List.mem_cons.mp he with he | he
        · subst he; exact hnomatch hpng hs
        · exact hrest e he hs
      · refine Or.inr ⟨[], dc, rest, rfl, hreach, hin, fun e he hs => ?_⟩
        rcases List.mem_cons.mp he with he | he
        · subst he; exact hnomatch hpng hs
        · exact hrest e he hs
    · exact Or.inr ⟨dc :: pre, d, suf, by rw [hds]; rfl, hr, hin, hall⟩

theorem create_manifest_eq (now : String) (fs : FS) :
    (create_screenshot_manifest now fs).manifest =
      some { generated_at := now,
             devices := fs.subdirs.map (fun e =>
               (e.1, ((e.2.filter (fun f => matchesPngGlob f)).length,
                      e.2.filter (fun f => matchesPngGlob f)))) } := by
  unfold create_screenshot_manifest
  simp only [foldl_append_map]
  rfl

theorem create_subdirs (now : String) (fs : FS) :
    (create_screenshot_manifest now fs).subdirs = fs.subdirs := rfl

theorem create_top_mem (now : String) (fs : FS) (f : String)
    (hf : f ∈ (create_screenshot_manifest now fs).topFiles) :
    f ∈ fs.topFiles ∨ f = "manifest.json" := by
  unfold create_screenshot_manifest at hf
  simp only at hf
  split at hf
  · exact Or.inl hf
  · rcases List.mem_append.mp hf with h | h
    · exact Or.inl h
    · exact Or.inr (by simpa using h)

theorem generate_all_eq (env : String → DevBehavior) (now : String) (clean : Bool)
    (sd : Option String) (fs : FS) (ds : List (String × DeviceConfig))
    (hsel : selectedDevices sd = some ds) :
    generate_all_screenshots env now clean sd fs =
      { fs := create_screenshot_manifest now
                (processAll env ds (if clean then clean_screenshots fs else fs)).1,
        success :=
          (processAll env ds (if clean then clean_screenshots fs else fs)).2.1 == ds.length,
        attempted :=
          (processAll env ds (if clean then clean_screenshots fs else fs)).2.2 } := by
  unfold generate_all_screenshots
  rw [hsel]

theorem generate_all_attempted (env : String → DevBehavior) (now : String) (clean : Bool)
    (sd : Option String) (fs : FS) (ds : List (String × DeviceConfig))
    (hsel : selectedDevices sd = some ds) :
    (generate_all_screenshots env now clean sd fs).attempted = ds.map Prod.fst := by
  rw [generate_all_eq env now clean sd fs ds hsel]
  exact processAll_attempted env ds _

theorem generate_all_success_iff (env : String → DevBehavior) (now : String) (clean : Bool)
    (sd : Option String) (fs : FS) (ds : List (String × DeviceConfig))
    (hsel : selectedDevices sd = some ds) :
    (generate_all_screenshots env now clean sd fs).success = true ↔
      ∀ dc ∈ ds, devSuccess (env dc.1) = true := by
  rw [generate_all_eq env now clean sd fs ds hsel]
  simp only [processAll_count, beq_iff_eq]
  exact List.countP_eq_length

theorem generate_all_manifest_isSome (env : String → DevBehavior) (now : String)
    (clean : Bool) (sd : Option String) (fs : FS) (ds : List (String × DeviceConfig))
    (hsel : selectedDevices sd = some ds) :
    ((generate_all_screenshots env now clean sd fs).fs.manifest).isSome = true := by
  rw [generate_all_eq env now clean sd fs ds hsel]
  simp only [create_manifest_eq]
  rfl

theorem findDeviceUuid_eq_none (name : String) (groups : List (List SimDevice))
    (h : ∀ group ∈ groups, ∀ d ∈ group, ¬(d.name = name ∧ d.isAvailable = true)) :
    findDeviceUuid name groups = none := by
  induction groups with
  | nil => rfl
  | cons g rest ih =>
    unfold findDeviceUuid
    rcases hfind : g.find? (fun d => d.name == name && d.isAvailable) with _ | d
    · rw [hfind]
      exact ih (fun gr hgr => h gr (List.mem_cons_of_mem _ hgr))
    · exfalso
      have hd := List.find?_some hfind
      have hmem := List.mem_of_find?_eq_some hfind
      simp only [Bool.and_eq_true, beq_iff_eq] at hd
      exact h g (List.mem_cons_self _ _) d hmem ⟨hd.1, hd.2⟩

theorem processDevice_top_preserve (b : DevBehavior) (cfg : DeviceConfig) (fs : FS)
    (f : String) (hpng : matchesPngGlob f = false) (hf : f ∈ fs.topFiles) :
    f ∈ (processDevice b cfg fs).1.topFiles := by
  unfold processDevice
  split
  · exact hf
  split
  · exact hf
  split
  · exact hf
  split
  · exact hf
  split
  · exact hf
  split
  · exact hf
  split
  · exact List.mem_append.mpr (Or.inl hf)
  · rw [organize_topFiles, List.mem_filter]
    exact ⟨List.mem_append.mpr (Or.inl hf), by simp [hpng]⟩

theorem processAll_top_preserve (env : String → DevBehavior)
    (ds : List (String × DeviceConfig)) (f : String)
    (hpng : matchesPngGlob f = false) :
    ∀ fs, f ∈ fs.topFiles → f ∈ (processAll env ds fs).1.topFiles := by
  induction ds with
  | nil => intro fs hf; exact hf
  | cons dc rest ih =>
    intro fs hf
    exact ih _ (processDevice_top_preserve _ _ _ _ hpng hf)

theorem create_top_preserve (now : String) (fs : FS) (f : String)
    (hf : f ∈ fs.topFiles) : f ∈ (create_screenshot_manifest now fs).topFiles := by
  unfold create_screenshot_manifest
  simp only
  split
  · exact hf
  · exact List.mem_append.mpr (Or.inl hf)

/-! ## Claims -/

/-- C1: the process exits with status 0 iff the project file is located and
every configured device (or the single selected device, when its name is
configured) completed processing without being skipped; it exits with
status 1 exactly otherwise — in particular when the project cannot be
located or when any processed device failed to fully complete. -/
theorem C1_exit_status (projectExists : Bool) (env : String → DevBehavior)
    (now : String) (clean : Bool) (sd : Option String) (fs : FS) :
    (mainExit projectExists env now clean sd fs = 0 ↔
      projectExists = true ∧
        ∃ ds, selectedDevices sd = some ds ∧ ∀ dc ∈ ds, devSuccess (env dc.1) = true) ∧
    (mainExit projectExists env now clean sd fs = 1 ↔
      ¬(projectExists = true ∧
        ∃ ds, selectedDevices sd = some ds ∧ ∀ dc ∈ ds, devSuccess (env dc.1) = true)) := by
  cases projectExists with
  | false => simp [mainExit]
  | true =>
    have hm : mainExit true env now clean sd fs =
        if (generate_all_screenshots env now clean sd fs).success then 0 else 1 := rfl
    rcases hsel : selectedDevices sd with _ | ds
    · have hsucc : (generate_all_screenshots env now clean sd fs).success = false := by
        unfold generate_all_screenshots
        rw [hsel]
      rw [hm, hsucc]
      simp [hsel]
    · have hiff := generate_all_success_iff env now clean sd fs ds hsel
      rw [hm]
      by_cases hs : (generate_all_screenshots env now clean sd fs).success = true
      · rw [if_pos hs]
        constructor
        · exact ⟨fun _ => ⟨rfl, ds, rfl, hiff.mp hs⟩, fun _ => rfl⟩
        · constructor
          · intro h
            exact absurd h (by norm_num)
          · intro h
            exact absurd ⟨rfl, ds, rfl, hiff.mp hs⟩ h
      · have hns : ¬ ∀ dc ∈ ds, devSuccess (env dc.1) = true :=
          fun hall => hs (hiff.mpr hall)
        rw [if_neg hs]
        constructor
        · constructor
          · intro h
            exact absurd h (by norm_num)
          · rintro ⟨-, ds2, hsel2, hall⟩
            obtain rfl : ds = ds2 := Option.some.inj hsel2
            exact absurd hall hns
        · constructor
          · rintro - ⟨-, ds2, hsel2, hall⟩
            obtain rfl : ds = ds2 := Option.some.inj hsel2
            exact absurd hall hns
          · intro _
            rfl

/-- C1 witness: a concrete run (project found, all devices succeed) exits
with status 0. -/
theorem C1_exit_status_witness : mainExit true allOkEnv "T" false none emptyFS = 0 :=
  (C1_exit_status true allOkEnv "T" false none emptyFS).1.mpr
    ⟨rfl, SCREENSHOT_DEVICES, rfl, by decide⟩

/-- C2: a device whose processing fails at any step (an exception anywhere,
a falsy boot result, or a failed build/install) is only skipped: every
configured device is still attempted in order, the run still reaches the
manifest step, and the run's overall result is `False`. -/
theorem C2_per_device_failure_nonfatal (env : String → DevBehavior) (now : String)
    (clean : Bool) (sd : Option String) (fs : FS) (ds : List (String × DeviceConfig))
    (name : String) (cfg : DeviceConfig)
    (hsel : selectedDevices sd = some ds)
    (hmem : (name, cfg) ∈ ds)
    (hfail : devSuccess (env name) = false) :
    (generate_all_screenshots env now clean sd fs).attempted = ds.map Prod.fst ∧
    ((generate_all_screenshots env now clean sd fs).fs.manifest).isSome = true ∧
    (generate_all_screenshots env now clean sd fs).success = false := by
  refine ⟨generate_all_attempted env now clean sd fs ds hsel,
    generate_all_manifest_isSome env now clean sd fs ds hsel, ?_⟩
  rcases hs : (generate_all_screenshots env now clean sd fs).success with _ | _
  · rfl
  · exfalso
    have hall := (generate_all_success_iff env now clean sd fs ds hsel).mp hs
    have := hall (name, cfg) hmem
    rw [hfail] at this
    exact Bool.false_ne_true this

/-- C2 witness: with the `iPhone 15` device raising an exception, all three
devices are still attempted, the manifest is still written, and the run
returns `False`. -/
theorem C2_per_device_failure_nonfatal_witness :
    (generate_all_screenshots c2Env "T" false none emptyFS).attempted =
        SCREENSHOT_DEVICES.map Prod.fst ∧
    ((generate_all_screenshots c2Env "T" false none emptyFS).fs.manifest).isSome = true ∧
    (generate_all_screenshots c2Env "T" false none emptyFS).success = false :=
  C2_per_device_failure_nonfatal c2Env "T" false none emptyFS SCREENSHOT_DEVICES
    "iPhone 15" (SCREENSHOT_DEVICES.get ⟨1, by decide⟩).2 rfl (by decide) (by decide)

/-- C3 counterexample: the empty device name (the result of invoking
`--device=`) is absent from the configuration table, yet the run does not
abort: the truthiness test of line 261 skips the validation, every
configured device is attempted, and the process can exit 0. -/
theorem C3_counterexample :
    List.lookup "" SCREENSHOT_DEVICES = none ∧
    (generate_all_screenshots allOkEnv "T" false (some "") emptyFS).attempted =
      ["iPhone 15 Pro Max", "iPhone 15", "iPad Pro 12.9-inch"] ∧
    (generate_all_screenshots allOkEnv "T" false (some "") emptyFS).success = true ∧
    mainExit true allOkEnv "T" false (some "") emptyFS = 0 := by
  decide

/-- C3 (amended): requesting a non-empty device name absent from the
configuration table makes the run return `False` with no device attempted
and no change to the file system beyond the optional clean, and the
process exits with status 1; the empty name is falsy, so it is treated as
no selection and the whole configured table is processed. -/
theorem C3_unknown_device_aborts (env : String → DevBehavior) (now : String)
    (clean : Bool) (fs : FS) (d : String) (projectExists : Bool)
    (h : List.lookup d SCREENSHOT_DEVICES = none) (hd : d ≠ "") :
    generate_all_screenshots env now clean (some d) fs =
      { fs := if clean then clean_screenshots fs else fs,
        success := false, attempted := [] } ∧
    mainExit projectExists env now clean (some d) fs = 1 := by
  have hsel : selectedDevices (some d) = none := by
    simp only [selectedDevices, h]
    rw [if_neg (by simp [hd])]
  have hrun : generate_all_screenshots env now clean (some d) fs =
      { fs := if clean then clean_screenshots fs else fs,
        success := false, attempted := [] } := by
    unfold generate_all_screenshots
    rw [hsel]
  refine ⟨hrun, ?_⟩
  cases projectExists with
  | false => rfl
  | true =>
    have hsucc : (generate_all_screenshots env now clean (some d) fs).success = false := by
      rw [hrun]
    have hm : mainExit true env now clean (some d) fs =
        if (generate_all_screenshots env now clean (some d) fs).success then 0 else 1 := rfl
    rw [hm, hsucc]
    rfl

/-- C3 witness: requesting the unconfigured name `iPhone 99` returns
`False`, attempts nothing, leaves the file system alone, and exits 1. -/
theorem C3_unknown_device_aborts_witness :
    generate_all_screenshots allOkEnv "T" false (some "iPhone 99") emptyFS =
      { fs := emptyFS, success := false, attempted := [] } ∧
    mainExit true allOkEnv "T" false (some "iPhone 99") emptyFS = 1 :=
  C3_unknown_device_aborts allOkEnv "T" false emptyFS "iPhone 99" true (by decide) (by decide)

/-- C4: the written manifest records exactly the immediate subdirectories
of the output directory at generation time — for each one the count of its
image files and their names — and carries the generation timestamp; the
result does not depend on any previously written manifest (it is
overwritten on each run). -/
theorem C4_manifest_reflects_tree (now : String) (fs : FS) :
    (create_screenshot_manifest now fs).manifest =
      some { generated_at := now,
             devices := fs.subdirs.map (fun e =>
               (e.1, ((e.2.filter (fun f => matchesPngGlob f)).length,
                      e.2.filter (fun f => matchesPngGlob f)))) } :=
  create_manifest_eq now fs

/-- C5: organizing for a device creates (or keeps) the subdirectory named
by the device's folder-safe name; a top-level file stays at the top level
iff it is not a `.png` file containing that name case-insensitively, and
every top-level `.png` file containing it ends up in the subdirectory. -/
theorem C5_organize_moves_matching (cfg : DeviceConfig) (fs : FS) :
    ((organize_screenshots cfg fs).subdirs.lookup (device_folder_name cfg)).isSome = true ∧
    (∀ f, f ∈ (organize_screenshots cfg fs).topFiles ↔
      f ∈ fs.topFiles ∧
        ¬(matchesPngGlob f = true ∧ containsCI f (device_folder_name cfg) = true)) ∧
    (∀ f ∈ fs.topFiles, matchesPngGlob f = true →
      containsCI f (device_folder_name cfg) = true →
      f ∈ subdirFiles (organize_screenshots cfg fs) (device_folder_name cfg)) := by
  refine ⟨organize_subdir_isSome cfg fs, ?_, ?_⟩
  · intro f
    rw [organize_topFiles, List.mem_filter]
    constructor
    · rintro ⟨hm, hc⟩
      refine ⟨hm, ?_⟩
      rintro ⟨hp, hq⟩
      simp [hp, hq] at hc
    · rintro ⟨hm, hc⟩
      refine ⟨hm, ?_⟩
      cases hp : matchesPngGlob f with
      | false => simp [hp]
      | true =>
        cases hq : containsCI f (device_folder_name cfg) with
        | false => simp [hp, hq]
        | true => exact absurd ⟨hp, hq⟩ hc
  · intro f hf hp hq
    rw [organize_subdir_eq]
    exact List.mem_append.mpr (Or.inr (List.mem_filter.mpr ⟨hf, by simp [hp, hq]⟩))

/-- C5 witness: organizing for the `iPhone 15` profile on a sample
directory keeps the subdirectory and moves the matching leftover file. -/
theorem C5_organize_moves_matching_witness :
    ((organize_screenshots (SCREENSHOT_DEVICES.get ⟨1, by decide⟩).2 sampleFS).subdirs.lookup
        (device_folder_name (SCREENSHOT_DEVICES.get ⟨1, by decide⟩).2)).isSome = true ∧
    "iPhone_15_old.png" ∈
      subdirFiles (organize_screenshots (SCREENSHOT_DEVICES.get ⟨1, by decide⟩).2 sampleFS)
        (device_folder_name (SCREENSHOT_DEVICES.get ⟨1, by decide⟩).2) :=
  ⟨(C5_organize_moves_matching (SCREENSHOT_DEVICES.get ⟨1, by decide⟩).2 sampleFS).1,
   (C5_organize_moves_matching (SCREENSHOT_DEVICES.get ⟨1, by decide⟩).2 sampleFS).2.2
     "iPhone_15_old.png" (by decide) (by decide) (by decide)⟩

/-- C6 counterexample: a clean-then-generate run in which every configured
device completes (so every organization step ran) can still leave a
top-level image file whose name matches a known device folder name: the
third device's test run produces `iPhone_15_bonus.png` after the
`iPhone_15` organize step has already run, and no later organize step
matches it. -/
theorem C6_counterexample :
    (generate_all_screenshots c6Env "2025-01-01 12:00:00" true none emptyFS).success = true ∧
    "iPhone_15_bonus.png" ∈
      (generate_all_screenshots c6Env "2025-01-01 12:00:00" true none emptyFS).fs.topFiles ∧
    matchesPngGlob "iPhone_15_bonus.png" = true ∧
    (∃ dc ∈ SCREENSHOT_DEVICES,
      containsCI "iPhone_15_bonus.png" (device_folder_name dc.2) = true) := by
  decide

/-- C6 (amended): after a clean-then-generate run, every image file left at
the top level of the output directory was produced by the test run of some
device whose processing reached the capture step, and its name matches the
folder-safe name of none of the devices from that point on in the
configured order that completed successfully; it may still match the
folder name of a device organized earlier in the run or of one that
failed. -/
theorem C6_top_level_residue (env : String → DevBehavior) (now : String)
    (sd : Option String) (fs : FS) (ds : List (String × DeviceConfig))
    (hsel : selectedDevices sd = some ds) :
    ∀ f ∈ (generate_all_screenshots env now true sd fs).fs.topFiles,
      matchesPngGlob f = true →
      ∃ pre d suf, ds = pre ++ d :: suf ∧
        devReachedTests (env d.1) = true ∧ f ∈ (env d.1).testFiles ∧
        ∀ dc ∈ d :: suf, devSuccess (env dc.1) = true →
          containsCI f (device_folder_name dc.2) = false := by
  intro f hf hpng
  rw [generate_all_eq env now true sd fs ds hsel] at hf
  rcases create_top_mem _ _ _ hf with hf2 | rfl
  · rcases processAll_top_origin env ds _ f hf2 hpng with ⟨hmem, -⟩ | hr
    · exfalso
      rw [if_pos rfl] at hmem
      unfold clean_screenshots at hmem
      simp only at hmem
      rcases List.mem_filter.mp hmem with ⟨-, hcond⟩
      simp [hpng] at hcond
    · exact hr
  · exact absurd hpng (by decide)

/-- C6 witness: in the counterexample run, the amended statement locates
the producer of the leftover file `iPhone_15_bonus.png`: a device whose
processing reached the capture step and after which no successful device's
folder name matches the file. -/
theorem C6_top_level_residue_witness :
    ∃ pre d suf, SCREENSHOT_DEVICES = pre ++ d :: suf ∧
      devReachedTests (c6Env d.1) = true ∧
      "iPhone_15_bonus.png" ∈ (c6Env d.1).testFiles ∧
      ∀ dc ∈ d :: suf, devSuccess (c6Env dc.1) = true →
        containsCI "iPhone_15_bonus.png" (device_folder_name dc.2) = false :=
  C6_top_level_residue c6Env "2025-01-01 12:00:00" none emptyFS SCREENSHOT_DEVICES rfl
    "iPhone_15_bonus.png" (by decide) (by decide)

/-- C7: `boot_simulator` returns the falsy `False` (and raises nothing,
the model being total) whenever no available simulator with the requested
name exists; and when a uuid is resolved, the boot command's non-zero exit
is tolerated exactly when its stderr reports the already-booted condition,
any other non-zero exit being a failure. -/
theorem C7_boot_failure_semantics (env : BootEnv) (device_name : String) :
    ((∀ group ∈ env.parsedDevices, ∀ d ∈ group,
        ¬(d.name = device_name ∧ d.isAvailable = true)) →
      boot_simulator env device_name = none) ∧
    (∀ u, env.listResult.returncode = 0 →
      findDeviceUuid device_name env.parsedDevices = some u →
      (boot_simulator env device_name = some u ↔
        ((env.bootCmd u).returncode = 0 ∨
          containsSub (env.bootCmd u).stderr
            "Unable to boot device in current state: Booted" = true))) := by
  constructor
  · intro h
    unfold boot_simulator
    split
    · rfl
    · rw [findDeviceUuid_eq_none device_name env.parsedDevices h]
  · intro u hrc hfind
    unfold boot_simulator
    rw [if_neg (by simp [hrc]), hfind]
    show (if ((env.bootCmd u).returncode != 0 &&
          !(containsSub (env.bootCmd u).stderr
              "Unable to boot device in current state: Booted")) = true
        then none else some u) = some u ↔ _
    by_cases hrq : (env.bootCmd u).returncode = 0
    · rw [if_neg (by simp [hrq])]
      simp [hrq]
    · by_cases hcs : containsSub (env.bootCmd u).stderr
          "Unable to boot device in current state: Booted" = true
      · rw [if_neg (by simp [hcs])]
        simp [hcs]
      · rw [if_pos (by simp [bne_iff_ne, hrq, hcs])]
        simp [hrq, hcs]

/-- C7 witness: with no available `iPhone 15` in the simulator list the
boot returns the falsy result, and with one whose boot command exits
non-zero reporting the already-booted condition the boot succeeds. -/
theorem C7_boot_failure_semantics_witness :
    boot_simulator noMatchBootEnv "iPhone 15" = none ∧
    boot_simulator alreadyBootedEnv "iPhone 15" = some "CCCC" :=
  ⟨(C7_boot_failure_semantics noMatchBootEnv "iPhone 15").1 (by decide),
   ((C7_boot_failure_semantics alreadyBootedEnv "iPhone 15").2 "CCCC" (by decide)
       (by decide)).mpr (Or.inr (by decide))⟩

/-- C8: a run restricted to one configured device attempts only that
device, and the contents of every other configured device's subdirectory
are left unchanged by the whole run. -/
theorem C8_single_device_frame (env : String → DevBehavior) (now : String)
    (clean : Bool) (fs : FS) (d : String) (cfg : DeviceConfig)
    (d2 : String) (cfg2 : DeviceConfig)
    (h : List.lookup d SCREENSHOT_DEVICES = some cfg)
    (h2 : (d2, cfg2) ∈ SCREENSHOT_DEVICES)
    (hne : d2 ≠ d) :
    (generate_all_screenshots env now clean (some d) fs).attempted = [d] ∧
    subdirFiles (generate_all_screenshots env now clean (some d) fs).fs
        (device_folder_name cfg2) = subdirFiles fs (device_folder_name cfg2) := by
  have hdm : (d, cfg) ∈ SCREENSHOT_DEVICES := lookup_mem _ _ _ h
  have hd : d ≠ "" := by
    have hkeys : ∀ p ∈ SCREENSHOT_DEVICES, p.1 ≠ "" := by decide
    exact hkeys (d, cfg) hdm
  have hsel : selectedDevices (some d) = some [(d, cfg)] := by
    simp only [selectedDevices, h]
    rw [if_neg (by simp [hd])]
  have hfn : device_folder_name cfg2 ≠ device_folder_name cfg := by
    have hinj : ∀ p ∈ SCREENSHOT_DEVICES, ∀ q ∈ SCREENSHOT_DEVICES,
        p.1 ≠ q.1 → device_folder_name p.2 ≠ device_folder_name q.2 := by decide
    exact hinj (d2, cfg2) h2 (d, cfg) hdm hne
  constructor
  · rw [generate_all_attempted env now clean (some d) fs [(d, cfg)] hsel]
    rfl
  · rw [generate_all_eq env now clean (some d) fs [(d, cfg)] hsel]
    unfold subdirFiles
    rw [create_subdirs]
    rw [processAll_subdirs_ne env [(d, cfg)] _
      (by
        intro dc hdc
        rw [List.mem_singleton] at hdc
        subst hdc
        exact hfn) _]
    cases clean with
    | false => rfl
    | true => rfl

/-- C8 witness: running only `iPhone 15 Pro Max` on a directory holding an
existing `iPhone_15` subdirectory attempts one device and leaves the
`iPhone_15` subdirectory's contents unchanged. -/
theorem C8_single_device_frame_witness :
    (generate_all_screenshots allOkEnv "T" false (some "iPhone 15 Pro Max") sampleFS).attempted =
      ["iPhone 15 Pro Max"] ∧
    subdirFiles
        (generate_all_screenshots allOkEnv "T" false (some "iPhone 15 Pro Max") sampleFS).fs
        (device_folder_name (SCREENSHOT_DEVICES.get ⟨1, by decide⟩).2) =
      subdirFiles sampleFS (device_folder_name (SCREENSHOT_DEVICES.get ⟨1, by decide⟩).2) :=
  C8_single_device_frame allOkEnv "T" false sampleFS "iPhone 15 Pro Max"
    (SCREENSHOT_DEVICES.get ⟨0, by decide⟩).2 "iPhone 15"
    (SCREENSHOT_DEVICES.get ⟨1, by decide⟩).2 (by decide) (by decide) (by decide)

/-- C9: clean, organize and the manifest scan select files solely by the
`.png` name suffix: a file whose name does not end in `.png` is never
deleted by clean, never moved by organize, never counted or listed by the
manifest, and survives at the top level across any whole run. -/
theorem C9_png_suffix_only (f : String) (hf : matchesPngGlob f = false) :
    (∀ fs : FS, f ∈ fs.topFiles → f ∈ (clean_screenshots fs).topFiles) ∧
    (∀ (cfg : DeviceConfig) (fs : FS), f ∈ fs.topFiles →
      f ∈ (organize_screenshots cfg fs).topFiles) ∧
    (∀ (now : String) (fs : FS) (m : Manifest),
      (create_screenshot_manifest now fs).manifest = some m →
      ∀ e ∈ m.devices, f ∉ e.2.2) ∧
    (∀ (env : String → DevBehavior) (now : String) (clean : Bool)
        (sd : Option String) (fs : FS), f ∈ fs.topFiles →
      f ∈ (generate_all_screenshots env now clean sd fs).fs.topFiles) := by
  have hclean : ∀ fs : FS, f ∈ fs.topFiles → f ∈ (clean_screenshots fs).topFiles := by
    intro fs hmem
    unfold clean_screenshots
    simp only
    exact List.mem_filter.mpr ⟨hmem, by simp [hf]⟩
  refine ⟨hclean, ?_, ?_, ?_⟩
  · intro cfg fs hmem
    rw [organize_topFiles]
    exact List.mem_filter.mpr ⟨hmem, by simp [hf]⟩
  · intro now fs m hm e he
    rw [create_manifest_eq] at hm
    obtain rfl := Option.some.inj hm
    simp only [List.mem_map] at he
    rcases he with ⟨p, -, rfl⟩
    intro hmem
    have := (List.mem_filter.mp hmem).2
    rw [hf] at this
    exact Bool.false_ne_true this
  · intro env now clean sd fs hmem
    have hmem0 : f ∈ (if clean then clean_screenshots fs else fs).topFiles := by
      cases clean with
      | false => exact hmem
      | true => exact hclean fs hmem
    rcases hsel : selectedDevices sd with _ | ds
    · unfold generate_all_screenshots
      rw [hsel]
      exact hmem0
    · rw [generate_all_eq env now clean sd fs ds hsel]
      exact create_top_preserve now _ f (processAll_top_preserve env ds f hf _ hmem0)

/-- C9 witness: the non-`.png` file `notes.txt` survives a clean and a full
clean-then-generate run at the top level. -/
theorem C9_png_suffix_only_witness :
    matchesPngGlob "notes.txt" = false ∧
    "notes.txt" ∈ (clean_screenshots sampleFS).topFiles ∧
    "notes.txt" ∈ (generate_all_screenshots allOkEnv "T" true none sampleFS).fs.topFiles :=
  ⟨by decide,
   (C9_png_suffix_only "notes.txt" (by decide)).1 sampleFS (by decide),
   (C9_png_suffix_only "notes.txt" (by decide)).2.2.2 allOkEnv "T" true none sampleFS
     (by decide)⟩

/-- C10 counterexample: with the clean flag and the empty device name (the
result of invoking `--clean --device=`), the name is absent from the
configuration table, yet the validation is skipped entirely: the run
attempts every device and always writes the manifest. -/
theorem C10_counterexample :
    List.lookup "" SCREENSHOT_DEVICES = none ∧
    sampleFS.manifest = none ∧
    ((generate_all_screenshots allOkEnv "T" true (some "") sampleFS).fs.manifest).isSome =
      true ∧
    (generate_all_screenshots allOkEnv "T" true (some "") sampleFS).attempted =
      ["iPhone 15 Pro Max", "iPhone 15", "iPad Pro 12.9-inch"] := by
  decide

/-- C10 (amended): with the clean flag and a non-empty unconfigured device
name, the clean step deletes every top-level `.png` file before the
device-name validation aborts the run: the run returns `False`, nothing is
attempted, no manifest is written, subdirectories are untouched — but the
top level has been cleaned.  With the empty name the validation is skipped
and a full run, manifest included, takes place. -/
theorem C10_clean_precedes_validation (env : String → DevBehavior) (now : String)
    (fs : FS) (d : String)
    (h : List.lookup d SCREENSHOT_DEVICES = none) (hd : d ≠ "") :
    (generate_all_screenshots env now true (some d) fs).fs.topFiles =
        fs.topFiles.filter (fun f => !(matchesPngGlob f)) ∧
    (generate_all_screenshots env now true (some d) fs).fs.subdirs = fs.subdirs ∧
    (generate_all_screenshots env now true (some d) fs).fs.manifest = fs.manifest ∧
    (generate_all_screenshots env now true (some d) fs).success = false ∧
    (generate_all_screenshots env now true (some d) fs).attempted = [] := by
  have hsel : selectedDevices (some d) = none := by
    simp only [selectedDevices, h]
    rw [if_neg (by simp [hd])]
  have hrun : generate_all_screenshots env now true (some d) fs =
      { fs := clean_screenshots fs, success := false, attempted := [] } := by
    unfold generate_all_screenshots
    rw [hsel]
    rfl
  rw [hrun]
  exact ⟨rfl, rfl, rfl, rfl, rfl⟩

/-- C10 witness: cleaning with the unknown name `iPhone 99` on a directory
holding `iPhone_15_old.png` and `notes.txt` deletes the `.png` file (the
directory is not left unchanged), writes no manifest, and fails. -/
theorem C10_clean_precedes_validation_witness :
    (generate_all_screenshots allOkEnv "T" true (some "iPhone 99") sampleFS).fs.topFiles =
        sampleFS.topFiles.filter (fun f => !(matchesPngGlob f)) ∧
    (generate_all_screenshots allOkEnv "T" true (some "iPhone 99") sampleFS).fs.manifest =
        sampleFS.manifest ∧
    (generate_all_screenshots allOkEnv "T" true (some "iPhone 99") sampleFS).success = false :=
  ⟨(C10_clean_precedes_validation allOkEnv "T" sampleFS "iPhone 99" (by decide) (by decide)).1,
   (C10_clean_precedes_validation allOkEnv "T" sampleFS "iPhone 99" (by decide) (by decide)).2.2.1,
   (C10_clean_precedes_validation allOkEnv "T" sampleFS "iPhone 99" (by decide) (by decide)).2.2.2.1⟩

end Screenshots
